import Mathlib

/-
  Verification development for the IntelliChat persistence layer.

  The model below is a shallow embedding of two source files:
    - src/src/database/connection.py  (DatabaseManager: directory setup,
      schema initialization, scoped connections)
    - src/scripts/check_data_integrity.py  (diagnostic script)

  SQLite itself is embedded only to the depth the code exercises it:
  tables, named indexes and triggers are tracked as name lists with
  create-if-absent semantics; rows of the three tables are explicit
  records; timestamps are naturals.  Two facts about the sqlite3 Python
  binding are part of the model because the source relies on them:
    - CHECK constraints are always enforced;
    - foreign-key constraints (including ON DELETE CASCADE) are only
      enforced when a connection has issued PRAGMA foreign_keys = ON,
      which DatabaseManager.get_connection never does, so every
      connection it hands out has foreign-key enforcement off (the
      sqlite3 default).  The Conn structure carries this flag.
-/

namespace IntelliChat

/-- Roles accepted by the CHECK constraint on messages.role in
    _initialize_database. -/
def allowedRoles : List String := ["user", "assistant", "system"]

/-- A row of the conversations table. -/
structure ConvRow where
  id : Nat
  session_id : String
  created_at : Nat
  updated_at : Nat
  title : Option String
  model_name : String
deriving Repr, DecidableEq

/-- A row of the messages table. -/
structure MsgRow where
  id : Nat
  conversation_id : Nat
  role : String
  content : String
  timestamp : Nat
  token_count : Option Nat
deriving Repr, DecidableEq

/-- A row of the model_usage table. -/
structure UsageRow where
  id : Nat
  model_name : String
  tokens_used : Nat
  response_time : Option Nat
  timestamp : Nat
deriving Repr, DecidableEq

/-- The state of one database file: the schema objects recorded in
    sqlite_master (tables, indexes, triggers, by name, in creation
    order) and the rows of the three tables.  convSeq and msgSeq model
    the AUTOINCREMENT counters. -/
structure DB where
  tables : List String
  indexes : List String
  triggers : List String
  conversations : List ConvRow
  messages : List MsgRow
  model_usage : List UsageRow
  convSeq : Nat
  msgSeq : Nat
deriving Repr, DecidableEq

/-- A database file freshly created by sqlite3.connect: no schema
    objects, no rows. -/
def emptyDB : DB :=
  { tables := [], indexes := [], triggers := [], conversations := [],
    messages := [], model_usage := [], convSeq := 0, msgSeq := 0 }

/-- CREATE ... IF NOT EXISTS semantics on a list of object names. -/
def addIfAbsent {α : Type} [DecidableEq α] (a : α) (l : List α) : List α :=
  if a ∈ l then l else l ++ [a]

theorem addIfAbsent_of_mem {α : Type} [DecidableEq α] {a : α} {l : List α}
    (h : a ∈ l) : addIfAbsent a l = l := by
  simp [addIfAbsent, h]

theorem mem_addIfAbsent_self {α : Type} [DecidableEq α] (a : α) (l : List α) :
    a ∈ addIfAbsent a l := by
  by_cases h : a ∈ l <;> simp [addIfAbsent, h]

theorem mem_addIfAbsent_of_mem {α : Type} [DecidableEq α] {a : α} (b : α)
    {l : List α} (h : a ∈ l) : a ∈ addIfAbsent b l := by
  by_cases hb : b ∈ l <;> simp [addIfAbsent, hb, h]

/-- Execute a sequence of CREATE ... IF NOT EXISTS statements in
    order. -/
def createAll (names : List String) (l : List String) : List String :=
  names.foldl (fun acc n => addIfAbsent n acc) l

theorem mem_createAll_of_mem (names : List String) {a : String}
    {l : List String} (h : a ∈ l) : a ∈ createAll names l := by
  induction names generalizing l with
  | nil => exact h
  | cons n ns ih => exact ih (mem_addIfAbsent_of_mem n h)

theorem mem_createAll_of_mem_names {a : String} {names : List String}
    (l : List String) (h : a ∈ names) : a ∈ createAll names l := by
  induction names generalizing l with
  | nil => cases h
  | cons n ns ih =>
    cases h with
    | head => exact mem_createAll_of_mem ns (mem_addIfAbsent_self a l)
    | tail _ h2 => exact ih (addIfAbsent n l) h2

theorem createAll_of_forall_mem {names l : List String}
    (h : ∀ n ∈ names, n ∈ l) : createAll names l = l := by
  induction names with
  | nil => rfl
  | cons n ns ih =>
    have hn : n ∈ l := h n (List.mem_cons_self n ns)
    show createAll ns (addIfAbsent n l) = l
    rw [addIfAbsent_of_mem hn]
    exact ih (fun m hm => h m (List.mem_cons_of_mem n hm))

theorem createAll_idem (names l : List String) :
    createAll names (createAll names l) = createAll names l :=
  createAll_of_forall_mem (fun _ hn => mem_createAll_of_mem_names l hn)

/-- DatabaseManager._initialize_database: executes, in order, the
    CREATE TABLE / CREATE INDEX / CREATE TRIGGER IF NOT EXISTS
    statements of connection.py lines 46-113 against the given database
    state and commits.  Rows are untouched.  Creating the conversations
    table (whose id column is INTEGER PRIMARY KEY AUTOINCREMENT) also
    creates the internal bookkeeping table sqlite_sequence, and its
    UNIQUE(session_id) column constraint creates the internal index
    sqlite_autoindex_conversations_1; both carry the reserved sqlite_
    name prefix and are filtered out by userVisible below. -/
def _initialize_database (db : DB) : DB :=
  { db with
    tables := createAll
      ["conversations", "sqlite_sequence", "messages", "model_usage"]
      db.tables,
    indexes := createAll
      ["sqlite_autoindex_conversations_1", "idx_messages_conversation",
       "idx_conversations_session", "idx_messages_timestamp",
       "idx_model_usage_timestamp"]
      db.indexes,
    triggers := createAll ["update_conversation_timestamp"] db.triggers }

/-- Whether a schema object name carries the reserved engine name
    start sqlite_ (the test idx.startswith applied by the script,
    computed on the character list). -/
def isReservedName (n : String) : Bool :=
  decide (n.toList.take 7 = "sqlite_".toList)

/-- Schema object names not reserved by the engine (the diagnostic
    script applies the same filter to indexes at
    check_data_integrity.py line 109). -/
def userVisible (names : List String) : List String :=
  names.filter (fun n => !isReservedName n)

/-- A live sqlite3 connection as handed out by
    DatabaseManager.get_connection: the durable (committed) database
    state, the in-transaction (pending) state, whether the handle is
    still open, and whether PRAGMA foreign_keys = ON was issued on it.
    sqlite3.connect leaves foreign_keys at its default, off, and
    get_connection issues no pragma. -/
structure Conn where
  committed : DB
  pending : DB
  isOpen : Bool
  foreign_keys : Bool
deriving Repr, DecidableEq

/-- sqlite3.connect(self.db_path, ...) followed by setting row_factory:
    both states start at the on-disk database, the handle is open and
    foreign-key enforcement is off (the sqlite3 default; no pragma is
    ever issued). -/
def connect (db : DB) : Conn :=
  { committed := db, pending := db, isOpen := true, foreign_keys := false }

/-- conn.commit(): the pending state becomes durable. -/
def Conn.commit (c : Conn) : Conn :=
  { c with committed := c.pending }

/-- conn.rollback(): the pending state is discarded back to the last
    committed state. -/
def Conn.rollback (c : Conn) : Conn :=
  { c with pending := c.committed }

/-- conn.close(): the handle is released. -/
def Conn.close (c : Conn) : Conn :=
  { c with isOpen := false }

/-- DatabaseManager.get_connection (connection.py lines 118-136): open
    a connection on the database, run the with-block body on it, commit
    if the body finished normally, roll back if it raised, re-raise the
    same exception, and close the handle in the finally clause either
    way.  The body mutates the connection and either returns normally
    (Except.ok) or raises (Except.error). -/
def get_connection (db : DB) (body : Conn → Conn × Except String Unit) :
    Conn × Except String Unit :=
  let c0 := connect db
  let r := body c0
  match r with
  | (c, .ok ()) => (Conn.close (Conn.commit c), .ok ())
  | (c, .error e) => (Conn.close (Conn.rollback c), .error e)

/-- The ids of the conversation rows a DELETE FROM conversations WHERE
    id = convId would remove. -/
def deletedConvIds (db : DB) (convId : Nat) : List Nat :=
  (db.conversations.filter (fun r => decide (r.id = convId))).map (fun r => r.id)

/-- Executing DELETE FROM conversations WHERE id = convId on a
    connection.  The messages table declares FOREIGN KEY
    (conversation_id) REFERENCES conversations(id) ON DELETE CASCADE,
    but sqlite only acts on it when the connection has foreign-key
    enforcement on; otherwise child rows are left untouched. -/
def Conn.deleteConversation (c : Conn) (convId : Nat) : Conn :=
  let db := c.pending
  let convs := db.conversations.filter (fun r => decide (r.id ≠ convId))
  let msgs :=
    if c.foreign_keys then
      db.messages.filter
        (fun m => decide (m.conversation_id ∉ deletedConvIds db convId))
    else
      db.messages
  { c with pending := { db with conversations := convs, messages := msgs } }

/-- The action of the AFTER INSERT trigger update_conversation_timestamp
    on the conversations rows: UPDATE conversations SET updated_at =
    CURRENT_TIMESTAMP WHERE id = NEW.conversation_id. -/
def bumpUpdatedAt (now convId : Nat) (l : List ConvRow) : List ConvRow :=
  l.map (fun c => if c.id = convId then { c with updated_at := now } else c)

/-- Executing
      INSERT INTO messages (conversation_id, role, content, timestamp,
                            token_count)
    against a database state, at clock value now (the statement's
    CURRENT_TIMESTAMP).  ts = none means the timestamp column is left
    to its DEFAULT CURRENT_TIMESTAMP.  sqlite rejects the row when the
    table is absent or when the CHECK(role IN (user, assistant,
    system)) constraint fails; the foreign-key constraint is not
    checked on connections with enforcement off, which is every
    connection get_connection produces.  On success the AFTER INSERT
    trigger update_conversation_timestamp (created by
    _initialize_database) sets the parent conversation's updated_at to
    CURRENT_TIMESTAMP. -/
def insertMessage (db : DB) (now : Nat) (convId : Nat) (role content : String)
    (ts : Option Nat) (tok : Option Nat) : Except String DB :=
  if "messages" ∉ db.tables then
    .error "no such table: messages"
  else if role ∉ allowedRoles then
    .error "CHECK constraint failed: messages"
  else
    let stamp := ts.getD now
    let row : MsgRow :=
      { id := db.msgSeq + 1, conversation_id := convId, role := role,
        content := content, timestamp := stamp, token_count := tok }
    let db1 := { db with messages := db.messages ++ [row],
                         msgSeq := db.msgSeq + 1 }
    let db2 :=
      if "update_conversation_timestamp" ∈ db.triggers then
        { db1 with conversations := bumpUpdatedAt now convId db1.conversations }
      else db1
    .ok db2

/-- A filesystem path, as components relative to the project root
    (connection.py computes PROJECT_ROOT from its own location three
    levels up; the script computes the same root two levels up from
    scripts/; both resolve to the repository root, the empty path
    here). -/
abbrev FilePath0 := List String

/-- PROJECT_ROOT = Path(file).parent.parent.parent (connection.py line
    15): the repository root. -/
def PROJECT_ROOT : FilePath0 := []

/-- DATA_DIR = PROJECT_ROOT / "data". -/
def DATA_DIR : FilePath0 := ["data"]

/-- CONVERSATIONS_DIR = DATA_DIR / "conversations". -/
def CONVERSATIONS_DIR : FilePath0 := ["data", "conversations"]

/-- LOGS_DIR = DATA_DIR / "logs" (named in check_data_integrity.py;
    connection.py creates the same directory inline at line 33). -/
def LOGS_DIR : FilePath0 := ["data", "logs"]

/-- DB_PATH = CONVERSATIONS_DIR / "conversations.db". -/
def DB_PATH : FilePath0 := ["data", "conversations", "conversations.db"]

/-- The parent directory of a path. -/
def parentDir (p : FilePath0) : FilePath0 := p.dropLast

/-- The fragment of the filesystem the two source files touch: the set
    of existing directories, the database files (path and content), and
    the log files in LOGS_DIR (name and size in bytes). -/
structure FS where
  dirs : List FilePath0
  dbFiles : List (FilePath0 × DB)
  logSizes : List (String × Nat)
deriving Repr, DecidableEq

/-- Look up a file by path in an association list of files. -/
def lookupDb (p : FilePath0) : List (FilePath0 × DB) → Option DB
  | [] => none
  | q :: t => if q.fst = p then some q.snd else lookupDb p t

/-- The database file stored at path p, if any. -/
def FS.dbAt (fs : FS) (p : FilePath0) : Option DB :=
  lookupDb p fs.dbFiles

/-- Overwrite the database file at path p. -/
def FS.setDb (fs : FS) (p : FilePath0) (db : DB) : FS :=
  { fs with dbFiles :=
      fs.dbFiles.map (fun q => if q.fst = p then (p, db) else q) }

/-- DatabaseManager._ensure_directories (connection.py lines 29-35):
    mkdir(exist_ok=True) on DATA_DIR, CONVERSATIONS_DIR and
    DATA_DIR / "logs".  It takes no path argument: the directories are
    the fixed module-level constants, never derived from self.db_path. -/
def _ensure_directories (fs : FS) : FS :=
  let d1 := addIfAbsent DATA_DIR fs.dirs
  let d2 := addIfAbsent CONVERSATIONS_DIR d1
  let d3 := addIfAbsent LOGS_DIR d2
  { fs with dirs := d3 }

/-- The DatabaseManager object: it only stores the resolved database
    path. -/
structure DatabaseManager where
  db_path : FilePath0
deriving Repr, DecidableEq

/-- DatabaseManager.__init__ (connection.py lines 23-27): resolve
    db_path (defaulting to DB_PATH), run _ensure_directories, then
    _initialize_database, which opens a connection on self.db_path and
    issues the DDL.  sqlite3.connect on a missing file creates an empty
    database there when the parent directory exists (creation is lazy
    in sqlite but completed by the DDL writes that follow immediately),
    and raises an OperationalError when it does not. -/
def DatabaseManager.init (db_path : Option FilePath0) (fs : FS) :
    Except String (DatabaseManager × FS) :=
  let p := db_path.getD DB_PATH
  let fs1 := _ensure_directories fs
  match fs1.dbAt p with
  | some db => .ok (⟨p⟩, fs1.setDb p (_initialize_database db))
  | none =>
    if parentDir p ∈ fs1.dirs then
      .ok (⟨p⟩, { fs1 with dbFiles :=
                    fs1.dbFiles ++ [(p, _initialize_database emptyDB)] })
    else
      .error "unable to open database file"

theorem lookupDb_append_singleton {l : List (FilePath0 × DB)} {p : FilePath0}
    {d : DB} (h : lookupDb p l = none) :
    lookupDb p (l ++ [(p, d)]) = some d := by
  induction l with
  | nil => simp [lookupDb]
  | cons a t ih =>
    by_cases ha : a.fst = p
    · simp [lookupDb, ha] at h
    · simp [lookupDb, ha] at h ⊢
      exact ih h

theorem dbAt_after_append {fs : FS} {p : FilePath0} {d : DB}
    (h : fs.dbAt p = none) :
    FS.dbAt { fs with dbFiles := fs.dbFiles ++ [(p, d)] } p = some d := by
  unfold FS.dbAt at h ⊢
  exact lookupDb_append_singleton h

/-- One line of the diagnostic report, tagged with the print helper
    that emitted it (print_success, print_warning, print_error,
    print_header, or a bare print).  Byte-exact formatting (colors,
    float rendering) is presentation and not modelled; the discriminant
    and the identifying text are. -/
inductive Line where
  | header (s : String)
  | success (s : String)
  | warning (s : String)
  | error (s : String)
  | info (s : String)
deriving Repr, DecidableEq

/-- Row count of a named table (SELECT COUNT(*) FROM table). -/
def rowCount (db : DB) (table : String) : Nat :=
  if table = "conversations" then db.conversations.length
  else if table = "messages" then db.messages.length
  else if table = "model_usage" then db.model_usage.length
  else 0

/-- check_directories (check_data_integrity.py lines 44-62): report
    each of the three required directories and return whether all
    exist. -/
def check_directories (fs : FS) : List Line × Bool :=
  let one := fun (name : String) (p : FilePath0) =>
    if p ∈ fs.dirs then (Line.success (name ++ " exists"), true)
    else (Line.error (name ++ " missing"), false)
  let d := one "Data directory" DATA_DIR
  let c := one "Conversations directory" CONVERSATIONS_DIR
  let l := one "Logs directory" LOGS_DIR
  (Line.header "Checking Directories" :: [d.fst, c.fst, l.fst],
   d.snd && c.snd && l.snd)

/-- The lines check_database prints for one required table: a success
    line plus the row count when present, an error line when missing.
    Note the return value of check_database does not depend on this:
    a missing table is only reported, never propagated. -/
def tableReport (db : DB) (table : String) : List Line :=
  if table ∈ db.tables then
    [Line.success table, Line.info ("Rows: " ++ toString (rowCount db table))]
  else
    [Line.error (table ++ " (missing)")]

/-- check_database (check_data_integrity.py lines 64-118): if the
    database file is absent, report it and return False; otherwise
    report size, the three required tables with row counts, the
    non-reserved indexes, and return True.  (The byte size of the file
    and sqlite errors on a non-database file are outside the model; the
    dbFiles map only holds well-formed databases.) -/
def check_database (fs : FS) : List Line × Bool :=
  match fs.dbAt DB_PATH with
  | none =>
    ([Line.header "Checking Database",
      Line.error "Database file not found",
      Line.warning "Run: python scripts/initialize_data.py"], false)
  | some db =>
    let tabs := (["conversations", "messages", "model_usage"].map
      (tableReport db)).flatten
    let idxs := (userVisible db.indexes).map (fun i => Line.info ("- " ++ i))
    (Line.header "Checking Database" :: Line.success "Database file exists" ::
       tabs ++ idxs ++ [Line.success "Database structure is valid"], true)

/-- check_database_integrity (check_data_integrity.py lines 120-146):
    warn and return False when the file is absent; otherwise run PRAGMA
    integrity_check and return whether it answered ok.  States of the
    model are never corrupted, so an existing file always answers
    ok. -/
def check_database_integrity (fs : FS) : List Line × Bool :=
  match fs.dbAt DB_PATH with
  | none =>
    ([Line.header "Database Integrity Check",
      Line.warning "Database does not exist, skipping integrity check"], false)
  | some _ =>
    ([Line.header "Database Integrity Check",
      Line.success "Database integrity: OK"], true)

/-- Look up a log file size by name. -/
def lookupSize (n : String) : List (String × Nat) → Option Nat
  | [] => none
  | q :: t => if q.fst = n then some q.snd else lookupSize n t

/-- The lines check_logs prints for one log file name
    (check_data_integrity.py lines 154-168).  size is in bytes;
    size_mb = size / (1024*1024) is computed exactly in double
    precision for any realistic size, so the float comparisons
    size_mb > 100 and size_mb > 10 are the strict integer comparisons
    below.  A warning is emitted only in the over-100MB branch; the
    over-10MB branch prints a success line showing the size in MB and
    the bottom branch a success line showing it in KB. -/
def logLine (name : String) (entry : Option Nat) : List Line :=
  match entry with
  | some size =>
    if 100 * 1048576 < size then
      [Line.warning (name ++ " is large"),
       Line.info "Consider archiving: python scripts/archive_logs.py"]
    else if 10 * 1048576 < size then
      [Line.success (name ++ " exists (MB)")]
    else
      [Line.success (name ++ " exists (KB)")]
  | none =>
    [Line.warning (name ++ " not found (will be created on first use)")]

/-- check_logs (check_data_integrity.py lines 148-168): report each of
    the three fixed log file names. -/
def check_logs (logs : List (String × Nat)) : List Line :=
  Line.header "Checking Log Files" ::
    (["app.log", "error.log", "api.log"].map
      (fun n => logLine n (lookupSize n logs))).flatten

/-- get_statistics (check_data_integrity.py lines 170-228): print
    aggregate counts, or a warning when the file is absent.  The
    per-role and per-model breakdown lines and the date range are
    presentation over the same rows and are not itemized here. -/
def get_statistics (fs : FS) : List Line :=
  match fs.dbAt DB_PATH with
  | none =>
    [Line.header "Database Statistics", Line.warning "Database does not exist"]
  | some db =>
    [Line.header "Database Statistics",
     Line.info ("Total Conversations: " ++ toString db.conversations.length),
     Line.info ("Total Messages: " ++ toString db.messages.length)]

/-- suggest_maintenance (check_data_integrity.py lines 230-260):
    suggest archiving any log file over 50MB (the database-size
    suggestion needs the file byte size, which the model does not
    track; no claim touches it).  With no suggestions a success line is
    printed. -/
def suggest_maintenance (fs : FS) : List Line :=
  let sugg := (fs.logSizes.filter (fun q => decide (50 * 1048576 < q.snd))).map
    (fun q => Line.info (q.fst ++ " is large, consider archiving"))
  Line.header "Maintenance Suggestions" ::
    (if sugg.isEmpty then [Line.success "No maintenance needed at this time"]
     else sugg)

/-- main (check_data_integrity.py lines 262-293): run the three
    boolean checks, then the log check, statistics and maintenance
    suggestions unconditionally, print a summary, and return 0 when
    all three boolean checks passed and 1 otherwise. -/
def main (fs : FS) : Nat × List Line :=
  let c1 := check_directories fs
  let c2 := check_database fs
  let c3 := check_database_integrity fs
  let l4 := check_logs fs.logSizes
  let l5 := get_statistics fs
  let l6 := suggest_maintenance fs
  let ok := c1.snd && c2.snd && c3.snd
  let summary :=
    if ok then [Line.header "Summary", Line.success "All checks passed!"]
    else [Line.header "Summary", Line.warning "Some checks failed"]
  (if ok then 0 else 1,
   c1.fst ++ c2.fst ++ c3.fst ++ l4 ++ l5 ++ l6 ++ summary)

/-- A filesystem holding only the project root directory. -/
def fs0 : FS := { dirs := [([] : FilePath0)], dbFiles := [], logSizes := [] }

/-- An initialized database holding one conversation (id 1) and one
    message referencing it. -/
def db1 : DB :=
  { _initialize_database emptyDB with
    conversations := [{ id := 1, session_id := "s1", created_at := 0,
                        updated_at := 0, title := none, model_name := "m" }],
    messages := [{ id := 1, conversation_id := 1, role := "user",
                   content := "hi", timestamp := 0, token_count := none }],
    convSeq := 1, msgSeq := 1 }

/-- C6: schema initialization is idempotent: running
    _initialize_database again on any database state it has already
    been run on returns, without error, a state with the same tables,
    indexes, triggers and the same rows. -/
theorem initialize_database_idempotent (db : DB) :
    _initialize_database (_initialize_database db) = _initialize_database db := by
  cases db with
  | mk t i r cs ms us cq mq =>
    simp only [_initialize_database]
    rw [createAll_idem, createAll_idem, createAll_idem]

/-- C2: get_connection commits the pending state when the with-block
    body returns normally, rolls the pending state back to the last
    committed state and re-raises the same exception when the body
    raises, and closes the connection in both cases. -/
theorem get_connection_scoped (db : DB)
    (body : Conn → Conn × Except String Unit) :
    (get_connection db body).fst.isOpen = false ∧
    (get_connection db body).snd = (body (connect db)).snd ∧
    (∀ c, body (connect db) = (c, Except.ok ()) →
      (get_connection db body).fst.committed = c.pending) ∧
    (∀ c e, body (connect db) = (c, Except.error e) →
      (get_connection db body).fst.committed = c.committed ∧
      (get_connection db body).fst.pending = c.committed) := by
  rcases hb : body (connect db) with ⟨c, r⟩
  simp only [get_connection, hb]
  cases r with
  | ok u =>
    cases u
    refine ⟨rfl, rfl, ?_, ?_⟩
    · intro c2 h2
      cases h2
      rfl
    · intro c2 e h2
      simp at h2
  | error e =>
    refine ⟨rfl, rfl, ?_, ?_⟩
    · intro c2 h2
      simp at h2
    · intro c2 e2 h2
      cases h2
      exact ⟨rfl, rfl⟩

/-- Witness for the scoped-connection theorem at a concrete database
    and a body that returns normally. -/
theorem get_connection_scoped_witness :
    (get_connection emptyDB (fun c => (c, Except.ok ()))).fst.committed =
      (connect emptyDB).pending :=
  (get_connection_scoped emptyDB (fun c => (c, Except.ok ()))).2.2.1
    (connect emptyDB) rfl

/-- C3: an INSERT into messages whose role is outside the three
    enumerated values fails the CHECK constraint and stores nothing
    (the statement returns an error, not a new state), while an insert
    with an allowed role is not rejected. -/
theorem insertMessage_role_check (db : DB) (now convId : Nat)
    (role content : String) (ts tok : Option Nat) :
    (role ∉ allowedRoles → "messages" ∈ db.tables →
      insertMessage db now convId role content ts tok =
        Except.error "CHECK constraint failed: messages") ∧
    (role ∈ allowedRoles → "messages" ∈ db.tables →
      ∃ db2, insertMessage db now convId role content ts tok =
        Except.ok db2) := by
  constructor
  · intro hr ht
    simp [insertMessage, ht, hr]
  · intro hr ht
    unfold insertMessage
    rw [if_neg (by simp [ht]), if_neg (by simp [hr])]
    exact ⟨_, rfl⟩

/-- Witness for the role CHECK theorem: on an initialized database a
    role outside the enumeration is rejected and the role user is
    accepted. -/
theorem insertMessage_role_check_witness :
    insertMessage (_initialize_database emptyDB) 0 1 "robot" "hi" none none =
      Except.error "CHECK constraint failed: messages" ∧
    ∃ db2, insertMessage (_initialize_database emptyDB) 0 1 "user" "hi"
      none none = Except.ok db2 :=
  ⟨(insertMessage_role_check (_initialize_database emptyDB) 0 1 "robot" "hi"
      none none).1 (by decide) (by decide),
   (insertMessage_role_check (_initialize_database emptyDB) 0 1 "user" "hi"
      none none).2 (by decide) (by decide)⟩

theorem ensure_dbAt (fs : FS) (p : FilePath0) :
    (_ensure_directories fs).dbAt p = fs.dbAt p := rfl

/-- C4: constructing a DatabaseManager on the default path when no
    database file exists there creates the file, and its user-visible
    schema is exactly the three tables conversations, messages,
    model_usage and the four named indexes (the engine-reserved
    sqlite_sequence table and sqlite_autoindex entry excluded). -/
theorem init_fresh_schema (fs : FS) (h : fs.dbAt DB_PATH = none) :
    ∃ fs2, DatabaseManager.init none fs = Except.ok (⟨DB_PATH⟩, fs2) ∧
      fs2.dbAt DB_PATH = some (_initialize_database emptyDB) ∧
      userVisible (_initialize_database emptyDB).tables =
        ["conversations", "messages", "model_usage"] ∧
      userVisible (_initialize_database emptyDB).indexes =
        ["idx_messages_conversation", "idx_conversations_session",
         "idx_messages_timestamp", "idx_model_usage_timestamp"] := by
  have h1 : (_ensure_directories fs).dbAt DB_PATH = none := h
  have h2 : parentDir DB_PATH ∈ (_ensure_directories fs).dirs := by
    show CONVERSATIONS_DIR ∈ (_ensure_directories fs).dirs
    simp only [_ensure_directories]
    exact mem_addIfAbsent_of_mem _ (mem_addIfAbsent_self _ _)
  refine ⟨_, ?_, dbAt_after_append h1, by rfl, by rfl⟩
  simp only [DatabaseManager.init, Option.getD]
  rw [h1, if_pos h2]

/-- Witness for the fresh-schema theorem on a filesystem holding only
    the project root. -/
theorem init_fresh_schema_witness :
    ∃ fs2, DatabaseManager.init none fs0 = Except.ok (⟨DB_PATH⟩, fs2) ∧
      fs2.dbAt DB_PATH = some (_initialize_database emptyDB) ∧
      userVisible (_initialize_database emptyDB).tables =
        ["conversations", "messages", "model_usage"] ∧
      userVisible (_initialize_database emptyDB).indexes =
        ["idx_messages_conversation", "idx_conversations_session",
         "idx_messages_timestamp", "idx_model_usage_timestamp"] :=
  init_fresh_schema fs0 rfl

/-- C10: _ensure_directories always creates the fixed module-level
    directories and never the parent of the supplied db_path, so a
    custom path whose parent directory does not exist (it is none of
    the fixed directories) makes construction fail even though
    directory creation ran and the three fixed directories are
    present. -/
theorem init_custom_path_fails (fs : FS) (p : FilePath0)
    (hf : fs.dbAt p = none)
    (hd : parentDir p ∉ (_ensure_directories fs).dirs) :
    DatabaseManager.init (some p) fs =
      Except.error "unable to open database file" ∧
    DATA_DIR ∈ (_ensure_directories fs).dirs ∧
    CONVERSATIONS_DIR ∈ (_ensure_directories fs).dirs ∧
    LOGS_DIR ∈ (_ensure_directories fs).dirs := by
  have h1 : (_ensure_directories fs).dbAt p = none := hf
  refine ⟨?_, ?_, ?_, ?_⟩
  · simp only [DatabaseManager.init, Option.getD]
    rw [h1, if_neg hd]
  · simp only [_ensure_directories]
    exact mem_addIfAbsent_of_mem _
      (mem_addIfAbsent_of_mem _ (mem_addIfAbsent_self _ _))
  · simp only [_ensure_directories]
    exact mem_addIfAbsent_of_mem _ (mem_addIfAbsent_self _ _)
  · simp only [_ensure_directories]
    exact mem_addIfAbsent_self _ _

/-- Witness for the custom-path theorem: a path under a directory that
    does not exist. -/
theorem init_custom_path_fails_witness :
    DatabaseManager.init (some ["custom", "my.db"]) fs0 =
      Except.error "unable to open database file" ∧
    DATA_DIR ∈ (_ensure_directories fs0).dirs ∧
    CONVERSATIONS_DIR ∈ (_ensure_directories fs0).dirs ∧
    LOGS_DIR ∈ (_ensure_directories fs0).dirs :=
  init_custom_path_fails fs0 ["custom", "my.db"] rfl (by decide)

/-- C7: when the database file is absent the diagnostic report flags
    the file as missing, the remaining sections (integrity check, log
    check, statistics, maintenance suggestions) still run, and main
    returns exit code 1. -/
theorem main_missing_db (fs : FS) (h : fs.dbAt DB_PATH = none) :
    (main fs).fst = 1 ∧
    Line.error "Database file not found" ∈ (main fs).snd ∧
    Line.header "Database Integrity Check" ∈ (main fs).snd ∧
    Line.header "Checking Log Files" ∈ (main fs).snd ∧
    Line.header "Database Statistics" ∈ (main fs).snd ∧
    Line.header "Maintenance Suggestions" ∈ (main fs).snd := by
  have hc2 : check_database fs =
      ([Line.header "Checking Database",
        Line.error "Database file not found",
        Line.warning "Run: python scripts/initialize_data.py"], false) := by
    unfold check_database
    rw [h]
  have hc3 : check_database_integrity fs =
      ([Line.header "Database Integrity Check",
        Line.warning "Database does not exist, skipping integrity check"],
       false) := by
    unfold check_database_integrity
    rw [h]
  have hc5 : get_statistics fs =
      [Line.header "Database Statistics",
       Line.warning "Database does not exist"] := by
    unfold get_statistics
    rw [h]
  refine ⟨?_, ?_, ?_, ?_, ?_, ?_⟩ <;>
    simp [main, hc2, hc3, hc5, check_logs, suggest_maintenance,
          List.mem_append]

/-- Witness for the missing-database theorem on a filesystem with no
    files at all. -/
theorem main_missing_db_witness :
    (main fs0).fst = 1 ∧
    Line.error "Database file not found" ∈ (main fs0).snd ∧
    Line.header "Database Integrity Check" ∈ (main fs0).snd ∧
    Line.header "Checking Log Files" ∈ (main fs0).snd ∧
    Line.header "Database Statistics" ∈ (main fs0).snd ∧
    Line.header "Maintenance Suggestions" ∈ (main fs0).snd :=
  main_missing_db fs0 rfl

/-- The filesystem state left by constructing a DatabaseManager at the
    default path over a filesystem holding only the project root. -/
def freshFS : FS :=
  { dirs := [[], DATA_DIR, CONVERSATIONS_DIR, LOGS_DIR],
    dbFiles := [(DB_PATH, _initialize_database emptyDB)],
    logSizes := [] }

/-- C9: on a database freshly initialized by DatabaseManager and still
    empty, the diagnostic script reports the three required tables
    present with zero rows each, reports integrity OK, and main
    returns exit code 0. -/
theorem main_fresh_database :
    DatabaseManager.init none fs0 = Except.ok (⟨DB_PATH⟩, freshFS) ∧
    check_database freshFS =
      ([Line.header "Checking Database",
        Line.success "Database file exists",
        Line.success "conversations", Line.info "Rows: 0",
        Line.success "messages", Line.info "Rows: 0",
        Line.success "model_usage", Line.info "Rows: 0",
        Line.info "- idx_messages_conversation",
        Line.info "- idx_conversations_session",
        Line.info "- idx_messages_timestamp",
        Line.info "- idx_model_usage_timestamp",
        Line.success "Database structure is valid"], true) ∧
    check_database_integrity freshFS =
      ([Line.header "Database Integrity Check",
        Line.success "Database integrity: OK"], true) ∧
    (main freshFS).fst = 0 :=
  ⟨by rfl, by rfl, by rfl, by rfl⟩

/-- C1: evaluating DELETE FROM conversations WHERE id = 1 on the
    sample database through a connection obtained from get_connection:
    the block commits, the conversation row is gone, but its message
    row is still there, because get_connection never issues PRAGMA
    foreign_keys = ON and the sqlite3 default leaves the declared
    ON DELETE CASCADE unenforced. -/
theorem delete_conversation_keeps_messages :
    ((get_connection db1
        (fun c => (c.deleteConversation 1, Except.ok ()))).fst).committed.conversations
      = [] ∧
    ((get_connection db1
        (fun c => (c.deleteConversation 1, Except.ok ()))).fst).committed.messages
      = [{ id := 1, conversation_id := 1, role := "user", content := "hi",
           timestamp := 0, token_count := none }] :=
  ⟨by rfl, by rfl⟩

/-- On a connection that had issued PRAGMA foreign_keys = ON the same
    delete would cascade to the message, matching the schema's declared
    intent. -/
theorem delete_conversation_cascades_when_enforced :
    (Conn.deleteConversation
      { connect db1 with foreign_keys := true } 1).pending.messages = [] := by
  rfl

/-- The value insertMessage produces on an initialized database when
    the role passes the CHECK constraint: the row is appended with
    timestamp ts.getD now and the trigger bumps the parent
    conversation's updated_at to now. -/
theorem insertMessage_ok_form (db : DB) (now convId : Nat)
    (role content : String) (ts tok : Option Nat)
    (h1 : "messages" ∈ db.tables) (h2 : role ∈ allowedRoles)
    (htr : "update_conversation_timestamp" ∈ db.triggers) :
    insertMessage db now convId role content ts tok = Except.ok
      { db with
        conversations := bumpUpdatedAt now convId db.conversations,
        messages := db.messages ++
          [{ id := db.msgSeq + 1, conversation_id := convId, role := role,
             content := content, timestamp := ts.getD now,
             token_count := tok }],
        msgSeq := db.msgSeq + 1 } := by
  unfold insertMessage
  rw [if_neg (by simp [h1]), if_neg (by simp [h2])]
  simp only [if_pos htr]

/-- C5 (amended): for every insertion whose timestamp is not later
    than the statement's current time — in particular when it is left
    to its CURRENT_TIMESTAMP default — the parent conversation's
    updated_at after the insert is at least the inserted message's
    timestamp. -/
theorem insertMessage_bumps_updated_at (db : DB) (now convId : Nat)
    (role content : String) (ts tok : Option Nat) (db2 : DB)
    (h1 : "messages" ∈ db.tables) (h2 : role ∈ allowedRoles)
    (htr : "update_conversation_timestamp" ∈ db.triggers)
    (hts : ∀ t, ts = some t → t ≤ now)
    (h : insertMessage db now convId role content ts tok = Except.ok db2) :
    ∃ m, db2.messages.getLast? = some m ∧ m.timestamp = ts.getD now ∧
      ∀ c ∈ db2.conversations, c.id = convId →
        m.timestamp ≤ c.updated_at := by
  rw [insertMessage_ok_form db now convId role content ts tok h1 h2 htr] at h
  injection h with h3
  subst h3
  refine ⟨_, List.getLast?_concat _, rfl, ?_⟩
  intro c hc hid
  simp only [bumpUpdatedAt] at hc
  rcases List.mem_map.mp hc with ⟨c0, hc0, hmap⟩
  by_cases hco : c0.id = convId
  · rw [if_pos hco] at hmap
    subst hmap
    cases ts with
    | none => simp
    | some t => simpa using hts t rfl
  · rw [if_neg hco] at hmap
    subst hmap
    exact absurd hid hco

/-- Witness for the amended insert theorem: a defaulted timestamp at
    clock 3 on the sample database. -/
theorem insertMessage_bumps_updated_at_witness :
    ∃ m, ({ db1 with
        conversations := bumpUpdatedAt 3 1 db1.conversations,
        messages := db1.messages ++
          [{ id := 2, conversation_id := 1, role := "user", content := "x",
             timestamp := 3, token_count := none }],
        msgSeq := 2 } : DB).messages.getLast? = some m ∧
      m.timestamp = (none : Option Nat).getD 3 ∧
      ∀ c ∈ ({ db1 with
        conversations := bumpUpdatedAt 3 1 db1.conversations,
        messages := db1.messages ++
          [{ id := 2, conversation_id := 1, role := "user", content := "x",
             timestamp := 3, token_count := none }],
        msgSeq := 2 } : DB).conversations, c.id = 1 →
        m.timestamp ≤ c.updated_at :=
  insertMessage_bumps_updated_at db1 3 1 "user" "x" none none _
    (by decide) (by decide) (by decide) (fun t ht => nomatch ht) (by rfl)

/-- C5 counterexample: on the sample database an insert carrying the
    explicit future timestamp 5 at clock 3 succeeds, yet the parent
    conversation ends with updated_at 3, strictly below the inserted
    message's timestamp 5. -/
theorem insert_future_timestamp_cex :
    insertMessage db1 3 1 "user" "hello" (some 5) none = Except.ok
      { db1 with
        conversations := [{ id := 1, session_id := "s1", created_at := 0,
                            updated_at := 3, title := none,
                            model_name := "m" }],
        messages := db1.messages ++
          [{ id := 2, conversation_id := 1, role := "user",
             content := "hello", timestamp := 5, token_count := none }],
        msgSeq := 2 } ∧
    (3 : Nat) < 5 :=
  ⟨by rfl, by norm_num⟩

/-- C8 counterexample: a 50MB log file is over the claimed 10MB
    warning threshold and at most 100MB, yet the log check emits only
    a success line for it and no warning line at all. -/
theorem check_logs_mid_size_no_warning :
    (10 * 1048576 : Nat) < 50 * 1048576 ∧
    (50 * 1048576 : Nat) ≤ 100 * 1048576 ∧
    check_logs [("app.log", 50 * 1048576), ("error.log", 1),
                ("api.log", 1)] =
      [Line.header "Checking Log Files",
       Line.success "app.log exists (MB)",
       Line.success "error.log exists (KB)",
       Line.success "api.log exists (KB)"] ∧
    Line.warning ("app.log" ++ " is large") ∉
      check_logs [("app.log", 50 * 1048576), ("error.log", 1),
                  ("api.log", 1)] :=
  ⟨by norm_num, by norm_num, by rfl, by decide⟩

/-- C8 (amended): the log check warns (and flags for archiving) only
    when a file exceeds 100MB; a file over 10MB and at most 100MB gets
    a success line showing its size in MB, and a file at or below 10MB
    a success line showing it in KB — neither with a warning. -/
theorem logLine_thresholds (name : String) (size : Nat) :
    (100 * 1048576 < size →
      logLine name (some size) =
        [Line.warning (name ++ " is large"),
         Line.info "Consider archiving: python scripts/archive_logs.py"]) ∧
    (10 * 1048576 < size → size ≤ 100 * 1048576 →
      logLine name (some size) =
        [Line.success (name ++ " exists (MB)")]) ∧
    (size ≤ 10 * 1048576 →
      logLine name (some size) =
        [Line.success (name ++ " exists (KB)")]) := by
  refine ⟨?_, ?_, ?_⟩
  · intro h
    simp only [logLine, if_pos h]
  · intro ha hb
    simp only [logLine, if_neg (by omega : ¬ 100 * 1048576 < size),
               if_pos ha]
  · intro h
    simp only [logLine, if_neg (by omega : ¬ 100 * 1048576 < size),
               if_neg (by omega : ¬ 10 * 1048576 < size)]

/-- Witness for the threshold theorem at 200MB, 50MB and 1KB. -/
theorem logLine_thresholds_witness :
    logLine "app.log" (some (200 * 1048576)) =
      [Line.warning ("app.log" ++ " is large"),
       Line.info "Consider archiving: python scripts/archive_logs.py"] ∧
    logLine "app.log" (some (50 * 1048576)) =
      [Line.success ("app.log" ++ " exists (MB)")] ∧
    logLine "app.log" (some 1024) =
      [Line.success ("app.log" ++ " exists (KB)")] :=
  ⟨(logLine_thresholds "app.log" (200 * 1048576)).1 (by norm_num),
   (logLine_thresholds "app.log" (50 * 1048576)).2.1 (by norm_num)
     (by norm_num),
   (logLine_thresholds "app.log" 1024).2.2 (by norm_num)⟩

end IntelliChat
